import Mathlib

/-!
# Verification of the WRP SFU control plane (`src/webrtc-server.js`)

A shallow embedding of the `SFUManager` class and the handles it operates
on.  JavaScript objects become Lean structures; in-place mutation becomes
explicit state passing; a thrown exception becomes an explicit error value
threaded out of the operation; the insertion-ordered `Map` becomes an
association list whose operations mirror `Map.get` / `Map.set` /
`Map.delete` / `Map.has`.  Numeric statistics and bitrates are rationals.
-/

namespace WRP

/-- One encoding layer of a sender's parameter block
(`params.encodings[i]` in the source).  Absent JavaScript fields are
`none`. -/
structure RTCRtpEncodingParameters where
  rid : Option String := none
  maxBitrate : Option ℚ := none
  scaleResolutionDownBy : Option ℚ := none
  scalabilityMode : Option String := none
deriving DecidableEq, Repr

/-- A sender's parameter block (`sender.getParameters()`).  The source
tests `if (!params.encodings)`, so the `encodings` field itself may be
absent: it is an `Option` of a list (an empty list is present — and truthy
in JavaScript). -/
structure RTCRtpSendParameters where
  encodings : Option (List RTCRtpEncodingParameters) := none
deriving DecidableEq, Repr

/-- An RTP sender handle: the track it publishes and its current
parameter block (`setParameters` overwrites the block). -/
structure RTCRtpSender where
  track : String
  parameters : RTCRtpSendParameters
deriving DecidableEq, Repr

/-- The transport peer-connection handle as the SFU manager observes it:
whether it has been closed, the log of `addTrack(track, stream)` calls the
fan-out issued on it (track identifier paired with the mixed-stream key),
and its senders. -/
structure RTCPeerConnection where
  closed : Bool := false
  addTrackCalls : List (String × String) := []
  senders : List RTCRtpSender := []
deriving DecidableEq, Repr

/-- An inbound media stream: its identifier and member track
identifiers. -/
structure MediaStream where
  id : String
  tracks : List String := []
deriving DecidableEq, Repr

/-- A track-arrival event (`RTCTrackEvent`): the arriving track and the
streams it is associated with (`event.streams`). -/
structure RTCTrackEvent where
  track : String
  streams : List MediaStream
deriving DecidableEq, Repr

/-- One statistics report of `pc.getStats()`, with the fields
`estimateAvailableBandwidth` and the adaptation tick read. -/
structure StatsReport where
  type : String
  isRemote : Bool
  bytesSent : ℚ
  packetsSent : ℚ
  packetsLost : ℚ
  roundTripTime : ℚ
  jitter : ℚ
  timestamp : ℚ
deriving DecidableEq, Repr

/-- The JavaScript exceptions the embedded operations can raise:
`typeError` for reading `.id` of `undefined` (empty `event.streams`),
`invalidState` for a transport call on a closed connection. -/
inductive JsError where
  | typeError
  | invalidState
deriving DecidableEq, Repr

/-! ## The insertion-ordered map (`new Map()`)

`SFUManager` keeps `this.participants` and `this.mixedStreams` in
JavaScript `Map`s: insertion-ordered, at most one entry per key, `set` on
an existing key updates the entry in place. -/

/-- JavaScript `Map.get(k)`: the entry with key `k`, if any. -/
def mapGet {α : Type} : List (String × α) → String → Option α
  | [], _ => none
  | (k1, v1) :: rest, k => if k1 = k then some v1 else mapGet rest k

/-- JavaScript `Map.has(k)`. -/
def mapHas {α : Type} (m : List (String × α)) (k : String) : Bool :=
  (mapGet m k).isSome

/-- JavaScript `Map.set(k, v)`: update the entry in place when present (keeping
insertion order), append otherwise. -/
def mapSet {α : Type} : List (String × α) → String → α → List (String × α)
  | [], k, v => [(k, v)]
  | (k1, v1) :: rest, k, v =>
      if k1 = k then (k, v) :: rest else (k1, v1) :: mapSet rest k v

/-- JavaScript `Map.delete(k)`: drop the entry with key `k`, if any. -/
def mapDelete {α : Type} : List (String × α) → String → List (String × α)
  | [], _ => []
  | (k1, v1) :: rest, k => if k1 = k then rest else (k1, v1) :: mapDelete rest k

/-- The `SFUManager` state: the participant registry
(`this.participants : Map<id, RTCPeerConnection>`) and the mixed-stream
table (`this.mixedStreams`, keyed by the originating stream's identifier;
a `MediaStream` value is represented by its member-track list). -/
structure SFUState where
  participants : List (String × RTCPeerConnection) := []
  mixedStreams : List (String × List String) := []
deriving DecidableEq, Repr

/-! ## Registry operations

Each operation returns, besides the updated state, the list of
connections on which it invoked `close()` during the call. -/

/-- Source `addParticipant(participantId, peerConnection)`:
`this.participants.set(participantId, peerConnection)` (the body also
installs the `ontrack` callback, which carries no registry state); the
body contains no `close()` call. -/
def addParticipant (st : SFUState) (participantId : String)
    (peerConnection : RTCPeerConnection) : SFUState × List RTCPeerConnection :=
  ({ st with participants := mapSet st.participants participantId peerConnection },
   [])

/-- Source `removeParticipant(participantId)`: when present, `close()` the
registered connection and delete the entry; otherwise do nothing.  The
second component records the connections `close()` was invoked on. -/
def removeParticipant (st : SFUState) (participantId : String) :
    SFUState × List RTCPeerConnection :=
  match mapGet st.participants participantId with
  | some pc =>
      ({ st with participants := mapDelete st.participants participantId },
       [pc])
  | none => (st, [])

/-! ## Track fan-out (`handleTrack`) -/

/-- The effect of `pc.addTrack(track, mixedStream)` on an open
connection: the call is recorded on the connection's log. -/
def recordAddTrack (pc : RTCPeerConnection) (track streamId : String) :
    RTCPeerConnection :=
  { pc with addTrackCalls := pc.addTrackCalls ++ [(track, streamId)] }

/-- The `participants.forEach` loop of `handleTrack`: skip the
originating participant, call `addTrack(track, mixedStream)` on each
other connection.  `addTrack` on a closed connection throws
`InvalidStateError`; JavaScript's `forEach` propagates the exception, so
the loop stops there and later entries are untouched.  Returns the
participant list after the loop together with the thrown-exception
flag. -/
def forwardAll (participantId track streamId : String) :
    List (String × RTCPeerConnection) →
    List (String × RTCPeerConnection) × Bool
  | [] => ([], false)
  | (id, pc) :: rest =>
    if id = participantId then
      let r := forwardAll participantId track streamId rest
      ((id, pc) :: r.1, r.2)
    else if pc.closed then
      ((id, pc) :: rest, true)
    else
      let r := forwardAll participantId track streamId rest
      ((id, recordAddTrack pc track streamId) :: r.1, r.2)

/-- Source `handleTrack(participantId, event)`: read `event.streams[0]` (reading
`.id` of `undefined` throws a `TypeError` when the stream list is empty,
before any bookkeeping); look up or lazily create the mixed stream keyed
by the stream's identifier; add the track to it; then fan the track out
to every other registered participant.  Returns the updated state and the
exception, if one escaped. -/
def handleTrack (st : SFUState) (participantId : String)
    (event : RTCTrackEvent) : SFUState × Option JsError :=
  match event.streams[0]? with
  | none => (st, some JsError.typeError)
  | some stream =>
    let members := (mapGet st.mixedStreams stream.id).getD []
    let st1 : SFUState :=
      { st with
        mixedStreams := mapSet st.mixedStreams stream.id (members ++ [event.track]) }
    let r := forwardAll participantId event.track stream.id st1.participants
    ({ st1 with participants := r.1 },
     if r.2 then some JsError.invalidState else none)

/-! ## Layer controller -/

/-- JavaScript `x || y` on an optional numeric field: `undefined` and `0`
are falsy, every other number is truthy. -/
def jsOr (x : Option ℚ) (y : ℚ) : ℚ :=
  match x with
  | none => y
  | some v => if v = 0 then y else v

/-- The body of `adjustBitrate`'s inner loop:
`encoding.maxBitrate = Math.min(availableBandwidth, encoding.maxBitrate || availableBandwidth)`. -/
def adjustEncoding (availableBandwidth : ℚ)
    (encoding : RTCRtpEncodingParameters) : RTCRtpEncodingParameters :=
  { encoding with
    maxBitrate := some (min availableBandwidth (jsOr encoding.maxBitrate availableBandwidth)) }

/-- One sender's step of `adjustBitrate`: when the parameter block has an
`encodings` list, clamp every layer and apply the block with
`setParameters`; otherwise leave the sender alone. -/
def adjustSender (availableBandwidth : ℚ) (sender : RTCRtpSender) :
    RTCRtpSender :=
  match sender.parameters.encodings with
  | none => sender
  | some encodings =>
      { sender with
        parameters :=
          { sender.parameters with
            encodings := some (encodings.map (adjustEncoding availableBandwidth)) } }

/-- Source `adjustBitrate(pc, availableBandwidth)`: iterate over
`pc.getSenders()` and clamp each sender's layers. -/
def adjustBitrate (availableBandwidth : ℚ) (pc : RTCPeerConnection) :
    RTCPeerConnection :=
  { pc with senders := pc.senders.map (adjustSender availableBandwidth) }

/-- The three fixed simulcast layers `enableSimulcast` installs. -/
def simulcastEncodings : List RTCRtpEncodingParameters :=
  [{ rid := some "f", maxBitrate := some 500000 },
   { rid := some "h", maxBitrate := some 200000, scaleResolutionDownBy := some 2 },
   { rid := some "q", maxBitrate := some 100000, scaleResolutionDownBy := some 4 }]

/-- The parameter rewrite `enableSimulcast` performs on the sender's
current block: default an absent `encodings` to `[{}]`, then overwrite it
with the three fixed layers. -/
def enableSimulcastParams (params : RTCRtpSendParameters) :
    RTCRtpSendParameters :=
  let params1 :=
    if params.encodings = none then
      { params with encodings := some [{}] }
    else params
  { params1 with encodings := some simulcastEncodings }

/-- Source `enableSimulcast(pc, track)`: `pc.addTrack(track)` creates a fresh
sender (whose initial parameter block `initParams` the transport engine
supplies), then the block read back by `getParameters` is rewritten and
applied with `setParameters`. -/
def enableSimulcast (pc : RTCPeerConnection) (track : String)
    (initParams : RTCRtpSendParameters) : RTCPeerConnection :=
  { pc with
    senders := pc.senders ++
      [{ track := track, parameters := enableSimulcastParams initParams }] }

/-! ## Bandwidth estimator and adaptation tick -/

/-- Source `estimateAvailableBandwidth(report)`: base throughput
`bytesSent * 8 / timestamp`, then the penalty chain — ×0.75 when the loss
ratio exceeds 5%, ×0.85 when the round-trip time exceeds 300, ×0.9 when
the jitter exceeds 100, in that order. -/
def estimateAvailableBandwidth (report : StatsReport) : ℚ :=
  let packetLossRate := report.packetsLost / report.packetsSent
  let throughput := report.bytesSent * 8 / report.timestamp
  let a0 := throughput
  let a1 := if packetLossRate > 5 / 100 then a0 * (75 / 100) else a0
  let a2 := if report.roundTripTime > 300 then a1 * (85 / 100) else a1
  let a3 := if report.jitter > 100 then a2 * (90 / 100) else a2
  a3

/-- One tick of `monitorNetworkConditions`'s interval callback.  The
statistics fetch is the transport's: its outcome is the `stats` argument.
The callback body has no `try`/`catch`, so a failed fetch propagates out
of the tick unhandled (second component) and the adjustment is skipped;
on success every outbound, non-remote report drives one `adjustBitrate`
call. -/
def monitorTick (pc : RTCPeerConnection)
    (stats : Except JsError (List StatsReport)) :
    RTCPeerConnection × Option JsError :=
  match stats with
  | Except.error e => (pc, some e)
  | Except.ok reports =>
      (reports.foldl
        (fun acc report =>
          if report.type = "outbound-rtp" ∧ report.isRemote = false then
            adjustBitrate (estimateAvailableBandwidth report) acc
          else acc)
        pc,
       none)

/-! ## Lemmas about the map operations -/

theorem mapGet_mapSet_self {α : Type} (m : List (String × α)) (k : String)
    (v : α) : mapGet (mapSet m k v) k = some v := by
  induction m with
  | nil => simp [mapGet, mapSet]
  | cons p rest ih =>
    obtain ⟨k1, v1⟩ := p
    by_cases h : k1 = k
    · simp [mapGet, mapSet, h]
    · simp [mapGet, mapSet, h, ih]

theorem mapGet_eq_none_of_not_mem {α : Type} (m : List (String × α))
    (k : String) (h : k ∉ m.map Prod.fst) : mapGet m k = none := by
  induction m with
  | nil => rfl
  | cons p rest ih =>
    obtain ⟨k1, v1⟩ := p
    simp only [List.map_cons, List.mem_cons, not_or] at h
    simp [mapGet, Ne.symm h.1, ih h.2]

theorem mapGet_mapDelete_mapSet {α : Type} (m : List (String × α))
    (k : String) (v : α) (h : (m.map Prod.fst).Nodup) :
    mapGet (mapDelete (mapSet m k v) k) k = none := by
  induction m with
  | nil => simp [mapGet, mapSet, mapDelete]
  | cons p rest ih =>
    obtain ⟨k1, v1⟩ := p
    simp only [List.map_cons, List.nodup_cons] at h
    by_cases hk : k1 = k
    · subst hk
      simp only [mapSet, if_pos rfl, mapDelete, if_pos rfl]
      exact mapGet_eq_none_of_not_mem rest k1 h.1
    · simp [mapSet, hk, mapDelete, ih h.2, mapGet]

theorem mapSet_keys_of_get {α : Type} (m : List (String × α))
    (k : String) (v w : α) (h : mapGet m k = some w) :
    (mapSet m k v).map Prod.fst = m.map Prod.fst := by
  induction m with
  | nil => simp [mapGet] at h
  | cons p rest ih =>
    obtain ⟨k1, v1⟩ := p
    by_cases hk : k1 = k
    · simp [mapSet, hk]
    · simp only [mapGet, if_neg hk] at h
      simp [mapSet, hk, ih h]

/-! ## Claims about the participant registry -/

/-- C7.  Starting from any well-formed registry, `addParticipant(id, c)`
followed by `removeParticipant(id)` leaves the registry with no entry for
`id`, and across the two calls `close()` is invoked exactly once, on
exactly that connection. -/
theorem addParticipant_removeParticipant_spec (st : SFUState)
    (participantId : String) (pc : RTCPeerConnection)
    (hkeys : (st.participants.map Prod.fst).Nodup) :
    mapGet (removeParticipant (addParticipant st participantId pc).1
        participantId).1.participants participantId = none ∧
    (addParticipant st participantId pc).2 ++
      (removeParticipant (addParticipant st participantId pc).1
        participantId).2 = [pc] := by
  have hget : mapGet (mapSet st.participants participantId pc) participantId
      = some pc := mapGet_mapSet_self st.participants participantId pc
  constructor
  · simp only [addParticipant, removeParticipant, hget]
    exact mapGet_mapDelete_mapSet st.participants participantId pc hkeys
  · simp only [addParticipant, removeParticipant, hget]
    rfl

/-- Witness for C7 at a concrete registry holding one other
participant. -/
theorem addParticipant_removeParticipant_spec_witness :
    ((({ participants := [("p0", {})] } : SFUState).participants.map
        Prod.fst).Nodup) ∧
    (mapGet (removeParticipant (addParticipant
        { participants := [("p0", {})] } "p1" {}).1 "p1").1.participants
        "p1" = none ∧
      (addParticipant ({ participants := [("p0", {})] } : SFUState) "p1"
          ({} : RTCPeerConnection)).2 ++
        (removeParticipant (addParticipant
          { participants := [("p0", {})] } "p1" {}).1 "p1").2 = [{}]) :=
  ⟨by decide,
   addParticipant_removeParticipant_spec { participants := [("p0", {})] }
     "p1" {} (by decide)⟩

/-- C8.  `removeParticipant` on an identifier absent from the registry is
a no-op: the state is unchanged and no connection is closed. -/
theorem removeParticipant_absent (st : SFUState) (participantId : String)
    (h : mapGet st.participants participantId = none) :
    removeParticipant st participantId = (st, []) := by
  simp only [removeParticipant, h]

/-- Witness for C8: removing an identifier from an empty registry. -/
theorem removeParticipant_absent_witness :
    mapGet ({} : SFUState).participants "p1" = none ∧
    removeParticipant {} "p1" = ({}, []) :=
  ⟨rfl, removeParticipant_absent {} "p1" rfl⟩

/-- C9.  Re-adding an identifier already registered with connection `c1`
replaces the entry with `c2`, keeps the key set unchanged and duplicate
free (at most one entry per identifier), and invokes `close()` on no
connection — in particular not on the displaced `c1`. -/
theorem addParticipant_overwrite (st : SFUState) (participantId : String)
    (c1 c2 : RTCPeerConnection)
    (hkeys : (st.participants.map Prod.fst).Nodup)
    (h : mapGet st.participants participantId = some c1) :
    mapGet (addParticipant st participantId c2).1.participants
        participantId = some c2 ∧
    (addParticipant st participantId c2).1.participants.map Prod.fst =
      st.participants.map Prod.fst ∧
    ((addParticipant st participantId c2).1.participants.map
        Prod.fst).Nodup ∧
    (addParticipant st participantId c2).2 = [] := by
  simp only [addParticipant]
  refine ⟨mapGet_mapSet_self st.participants participantId c2, ?_, ?_, trivial⟩
  · exact mapSet_keys_of_get st.participants participantId c2 c1 h
  · rw [mapSet_keys_of_get st.participants participantId c2 c1 h]
    exact hkeys

/-- Witness for C9 at a concrete two-entry registry. -/
theorem addParticipant_overwrite_witness :
    ((({ participants := [("p0", {}), ("p1", { closed := true })] } :
        SFUState).participants.map Prod.fst).Nodup) ∧
    mapGet ({ participants := [("p0", {}), ("p1", { closed := true })] } :
        SFUState).participants "p1" = some { closed := true } ∧
    (mapGet (addParticipant
        { participants := [("p0", {}), ("p1", { closed := true })] } "p1"
        {}).1.participants "p1" = some {} ∧
      (addParticipant ({ participants :=
          [("p0", {}), ("p1", { closed := true })] } : SFUState) "p1"
          ({} : RTCPeerConnection)).1.participants.map Prod.fst =
        ({ participants := [("p0", {}), ("p1", { closed := true })] } :
          SFUState).participants.map Prod.fst ∧
      ((addParticipant ({ participants :=
          [("p0", {}), ("p1", { closed := true })] } : SFUState) "p1"
          ({} : RTCPeerConnection)).1.participants.map Prod.fst).Nodup ∧
      (addParticipant ({ participants :=
          [("p0", {}), ("p1", { closed := true })] } : SFUState) "p1"
          ({} : RTCPeerConnection)).2 = []) :=
  ⟨by decide, by decide,
   addParticipant_overwrite
     { participants := [("p0", {}), ("p1", { closed := true })] } "p1"
     { closed := true } {} (by decide) (by decide)⟩

/-! ## Claims about the bandwidth estimator -/

/-- C4.  The estimate is the base throughput `bytesSent * 8 / timestamp`
multiplied by exactly the penalty factors whose condition holds, in the
fixed order loss (×0.75 when the loss ratio exceeds 0.05), round-trip
time (×0.85 when it exceeds 300), jitter (×0.9 when it exceeds 100); on
the report with `bytesSent = 125000`, `timestamp = 1`,
`packetsLost = 60`, `packetsSent = 1000`, `roundTripTime = 350`,
`jitter = 150` all three penalties fire and the estimate is 573750. -/
theorem estimateAvailableBandwidth_spec :
    (∀ report : StatsReport,
      estimateAvailableBandwidth report =
        report.bytesSent * 8 / report.timestamp *
          (if report.packetsLost / report.packetsSent > 5 / 100 then
            75 / 100 else 1) *
          (if report.roundTripTime > 300 then 85 / 100 else 1) *
          (if report.jitter > 100 then 90 / 100 else 1)) ∧
    estimateAvailableBandwidth
      { type := "outbound-rtp", isRemote := false, bytesSent := 125000,
        packetsSent := 1000, packetsLost := 60, roundTripTime := 350,
        jitter := 150, timestamp := 1 } = 573750 := by
  constructor
  · intro report
    simp only [estimateAvailableBandwidth]
    split_ifs <;> ring
  · norm_num [estimateAvailableBandwidth]

/-! ## Claims about `handleTrack` -/

/-- C10.  `handleTrack` reads `event.streams[0].id` unconditionally: on
an event with an empty stream list it throws a `TypeError` before any
mixed-stream bookkeeping or fan-out (the state is returned unchanged),
and that error branch is reached exactly when the stream list is
empty. -/
theorem handleTrack_empty_streams :
    (∀ (st : SFUState) (participantId trackId : String),
      handleTrack st participantId { track := trackId, streams := [] } =
        (st, some JsError.typeError)) ∧
    (∀ (st : SFUState) (participantId : String) (event : RTCTrackEvent),
      (handleTrack st participantId event).2 = some JsError.typeError ↔
        event.streams = []) := by
  constructor
  · intro st participantId trackId
    rfl
  · intro st participantId event
    cases hstreams : event.streams with
    | nil => simp [handleTrack, hstreams]
    | cons stream rest =>
      simp only [handleTrack, hstreams, List.getElem?_cons_zero]
      split <;> simp

/-! ## Claims about the layer controller -/

/-- C5.  Whatever parameter block the fresh sender starts with,
`enableSimulcast` appends one sender publishing the track whose applied
parameters hold exactly three layers: full resolution capped at 500000,
downscale 2 capped at 200000, downscale 4 capped at 100000. -/
theorem enableSimulcast_spec (pc : RTCPeerConnection) (track : String)
    (initParams : RTCRtpSendParameters) :
    (enableSimulcast pc track initParams).senders[pc.senders.length]? =
      some { track := track,
             parameters := { encodings := some [
               { rid := some "f", maxBitrate := some 500000,
                 scaleResolutionDownBy := none, scalabilityMode := none },
               { rid := some "h", maxBitrate := some 200000,
                 scaleResolutionDownBy := some 2, scalabilityMode := none },
               { rid := some "q", maxBitrate := some 100000,
                 scaleResolutionDownBy := some 4,
                 scalabilityMode := none }] } } ∧
    (enableSimulcast pc track initParams).senders.length =
      pc.senders.length + 1 := by
  have hparams : enableSimulcastParams initParams =
      { encodings := some simulcastEncodings } := by
    cases initParams with
    | mk encodings =>
      cases encodings <;> simp [enableSimulcastParams]
  constructor
  · simp [enableSimulcast, hparams, simulcastEncodings,
      List.getElem?_append_right]
  · simp [enableSimulcast]

/-! ## Lemmas about the fan-out loop -/

/-- When every non-originating connection is open, the fan-out loop
records one `addTrack(track, mixedStream)` call on each of them, skips
the originating participant, and throws nothing. -/
theorem forwardAll_of_open (participantId track streamId : String)
    (ps : List (String × RTCPeerConnection))
    (hopen : ∀ p ∈ ps, p.1 ≠ participantId → p.2.closed = false) :
    forwardAll participantId track streamId ps =
      (ps.map (fun p => if p.1 = participantId then p
        else (p.1, recordAddTrack p.2 track streamId)), false) := by
  induction ps with
  | nil => rfl
  | cons p rest ih =>
    obtain ⟨id, pc⟩ := p
    have hrest : ∀ q ∈ rest, q.1 ≠ participantId → q.2.closed = false :=
      fun q hq => hopen q (List.mem_cons_of_mem _ hq)
    by_cases hid : id = participantId
    · simp [forwardAll, hid, ih hrest]
    · have hpc : pc.closed = false :=
        hopen (id, pc) (List.mem_cons_self _ _) hid
      simp [forwardAll, hid, hpc, ih hrest]

/-- When the loop meets a closed non-originating connection after a
prefix of open ones, it records the calls on the prefix, throws there,
and leaves the failing entry and everything after it untouched. -/
theorem forwardAll_stops (participantId track streamId : String)
    (pre post : List (String × RTCPeerConnection)) (idb : String)
    (pcb : RTCPeerConnection)
    (hpre : ∀ p ∈ pre, p.1 ≠ participantId → p.2.closed = false)
    (hb : idb ≠ participantId) (hclosed : pcb.closed = true) :
    forwardAll participantId track streamId (pre ++ (idb, pcb) :: post) =
      (pre.map (fun p => if p.1 = participantId then p
        else (p.1, recordAddTrack p.2 track streamId)) ++
        (idb, pcb) :: post, true) := by
  induction pre with
  | nil => simp [forwardAll, hb, hclosed]
  | cons p rest ih =>
    obtain ⟨id, pc⟩ := p
    have hrest : ∀ q ∈ rest, q.1 ≠ participantId → q.2.closed = false :=
      fun q hq => hpre q (List.mem_cons_of_mem _ hq)
    by_cases hid : id = participantId
    · simp [forwardAll, hid, ih hrest]
    · have hpc : pc.closed = false :=
        hpre (id, pc) (List.mem_cons_self _ _) hid
      simp [forwardAll, hid, hpc, ih hrest]

/-- C1.  On a track arrival whose first associated stream is `S`, when
every other registered connection is open, `handleTrack` finishes
without an exception and, for every participant registered before the
call: a non-originating participant's connection gets exactly one new
`addTrack` call carrying the event's track bound to the mixed stream
keyed by `S.id`, while the originating participant's connection is left
exactly as it was — it never receives its own track. -/
theorem handleTrack_fans_out (st : SFUState) (participantId : String)
    (event : RTCTrackEvent) (S : MediaStream)
    (hS : event.streams[0]? = some S)
    (hopen : ∀ p ∈ st.participants, p.1 ≠ participantId →
      p.2.closed = false) :
    (handleTrack st participantId event).2 = none ∧
    ∀ (i : ℕ) (id : String) (pc : RTCPeerConnection),
      st.participants[i]? = some (id, pc) →
      (handleTrack st participantId event).1.participants[i]? =
        some (if id = participantId then (id, pc)
          else (id, recordAddTrack pc event.track S.id)) := by
  have hfwd := forwardAll_of_open participantId event.track S.id
    st.participants hopen
  constructor
  · simp [handleTrack, hS, hfwd]
  · intro i id pc hi
    simp only [handleTrack, hS, hfwd, List.getElem?_map, hi, Option.map_some]
    by_cases hid : id = participantId <;> simp [hid]

/-- Witness for C1: two registered participants, a track arriving from
the first; the second receives the forwarded call, the first does
not. -/
theorem handleTrack_fans_out_witness :
    (({ track := "t1", streams := [{ id := "s1" }] } :
        RTCTrackEvent).streams[0]? = some { id := "s1" }) ∧
    (∀ p ∈ ({ participants := [("alice", {}), ("bob", {})] } :
        SFUState).participants, p.1 ≠ "alice" → p.2.closed = false) ∧
    ((handleTrack { participants := [("alice", {}), ("bob", {})] } "alice"
        { track := "t1", streams := [{ id := "s1" }] }).2 = none ∧
      ∀ (i : ℕ) (id : String) (pc : RTCPeerConnection),
        ({ participants := [("alice", {}), ("bob", {})] } :
          SFUState).participants[i]? = some (id, pc) →
        (handleTrack { participants := [("alice", {}), ("bob", {})] }
          "alice" { track := "t1", streams := [{ id := "s1" }] }
          ).1.participants[i]? =
          some (if id = "alice" then (id, pc)
            else (id, recordAddTrack pc "t1" "s1"))) :=
  ⟨rfl, by decide,
   handleTrack_fans_out { participants := [("alice", {}), ("bob", {})] }
     "alice" { track := "t1", streams := [{ id := "s1" }] } { id := "s1" }
     rfl (by decide)⟩

/-- C3 counterexample.  Registry `[a, b, c]` with `b`'s connection
closed, track arriving from an outside participant `o`: the `addTrack`
failure on `b` escapes `handleTrack` as an exception, `a` received the
forwarded track, and `c` — a remaining registered participant — was never
attempted (its call log stays empty).  This refutes the claim that the
fan-out still attempts `addTrack` on every remaining participant. -/
theorem handleTrack_abort_counterexample :
    (handleTrack
      { participants := [("a", {}), ("b", { closed := true }), ("c", {})] }
      "o" { track := "t1", streams := [{ id := "s1" }] }).2 =
        some JsError.invalidState ∧
    mapGet (handleTrack
      { participants := [("a", {}), ("b", { closed := true }), ("c", {})] }
      "o" { track := "t1", streams := [{ id := "s1" }] }).1.participants
      "a" = some { addTrackCalls := [("t1", "s1")] } ∧
    mapGet (handleTrack
      { participants := [("a", {}), ("b", { closed := true }), ("c", {})] }
      "o" { track := "t1", streams := [{ id := "s1" }] }).1.participants
      "c" = some {} :=
  ⟨rfl, rfl, rfl⟩

/-- C3 as amended.  A failing `addTrack` during fan-out is not isolated:
the exception escapes `handleTrack` and aborts the loop at the failing
participant — connections earlier in registry order keep the forwarded
track, while the failing participant and every participant after it in
registry order are left untouched, never attempted. -/
theorem handleTrack_abort_spec (st : SFUState) (participantId : String)
    (event : RTCTrackEvent) (S : MediaStream)
    (hS : event.streams[0]? = some S)
    (pre post : List (String × RTCPeerConnection)) (idb : String)
    (pcb : RTCPeerConnection)
    (hsplit : st.participants = pre ++ (idb, pcb) :: post)
    (hpre : ∀ p ∈ pre, p.1 ≠ participantId → p.2.closed = false)
    (hb : idb ≠ participantId) (hclosed : pcb.closed = true) :
    (handleTrack st participantId event).2 = some JsError.invalidState ∧
    (handleTrack st participantId event).1.participants =
      pre.map (fun p => if p.1 = participantId then p
        else (p.1, recordAddTrack p.2 event.track S.id)) ++
        (idb, pcb) :: post := by
  have hfwd := forwardAll_stops participantId event.track S.id pre post
    idb pcb hpre hb hclosed
  constructor
  · simp [handleTrack, hS, hsplit, hfwd]
  · simp [handleTrack, hS, hsplit, hfwd]

/-- Witness for the amended C3: prefix `[a]` open, `b` closed, suffix
`[c]`; the exception escapes, `a` keeps its forwarded call and `b`, `c`
are untouched. -/
theorem handleTrack_abort_spec_witness :
    (({ track := "t1", streams := [{ id := "s1" }] } :
        RTCTrackEvent).streams[0]? = some { id := "s1" }) ∧
    (({ participants := [("a", {}), ("b", { closed := true }), ("c", {})] } :
        SFUState).participants =
      [("a", { closed := false })] ++
        ("b", ({ closed := true } : RTCPeerConnection)) ::
        [("c", { closed := false })]) ∧
    (∀ p ∈ ([("a", { closed := false })] :
        List (String × RTCPeerConnection)), p.1 ≠ "o" →
      p.2.closed = false) ∧
    ("b" ≠ "o") ∧
    (({ closed := true } : RTCPeerConnection).closed = true) ∧
    ((handleTrack
        { participants :=
            [("a", {}), ("b", { closed := true }), ("c", {})] }
        "o" { track := "t1", streams := [{ id := "s1" }] }).2 =
          some JsError.invalidState ∧
      (handleTrack
        { participants :=
            [("a", {}), ("b", { closed := true }), ("c", {})] }
        "o" { track := "t1", streams := [{ id := "s1" }] }).1.participants =
        ([("a", { closed := false })].map
          (fun p => if p.1 = "o" then p
            else (p.1, recordAddTrack p.2 "t1" "s1"))) ++
          ("b", ({ closed := true } : RTCPeerConnection)) ::
          [("c", { closed := false })]) :=
  ⟨rfl, rfl, by decide, by decide, rfl,
   handleTrack_abort_spec
     { participants := [("a", {}), ("b", { closed := true }), ("c", {})] }
     "o" { track := "t1", streams := [{ id := "s1" }] } { id := "s1" } rfl
     [("a", { closed := false })] [("c", { closed := false })] "b"
     { closed := true } rfl (by decide) (by decide) rfl⟩

/-- C2 counterexample.  A layer whose cap is set to `0` before the call:
`encoding.maxBitrate || availableBandwidth` treats the `0` as falsy, so
`adjustBitrate(pc, 1)` rewrites the cap to `1`, strictly above its
pre-call value `0`.  This refutes "no layer's cap ever exceeds its
pre-call value". -/
theorem adjustBitrate_raises_zero_cap :
    (({ senders := [{ track := "t",
                      parameters := { encodings := some [
                        { maxBitrate := some 0 }] } }] } :
      RTCPeerConnection).senders.map
        (fun s => s.parameters.encodings)) =
      [some [{ rid := none, maxBitrate := some 0,
               scaleResolutionDownBy := none, scalabilityMode := none }]] ∧
    ((adjustBitrate 1
      { senders := [{ track := "t",
                      parameters := { encodings := some [
                        { maxBitrate := some 0 }] } }] }
      ).senders.map (fun s => s.parameters.encodings)) =
      [some [{ rid := none, maxBitrate := some 1,
               scaleResolutionDownBy := none, scalabilityMode := none }]] ∧
    (0 : ℚ) < 1 :=
  ⟨rfl, by simp [adjustBitrate, adjustSender, adjustEncoding, jsOr],
   by norm_num⟩

/-- C2 as amended.  For a non-negative bandwidth `B`, `adjustBitrate`
clamps every layer positionally: a layer whose cap was unset — or set to
`0`, which the `||` default treats the same way — gets cap exactly `B`,
and a layer with a nonzero prior cap `v` gets `min B v`, which never
exceeds `v`. -/
theorem adjustBitrate_clamps (pc : RTCPeerConnection)
    (availableBandwidth : ℚ) (hbw : 0 ≤ availableBandwidth) (i j : ℕ)
    (sender : RTCRtpSender) (hs : pc.senders[i]? = some sender)
    (encodings : List RTCRtpEncodingParameters)
    (he : sender.parameters.encodings = some encodings)
    (e : RTCRtpEncodingParameters) (hj : encodings[j]? = some e) :
    ∃ e2 : RTCRtpEncodingParameters,
      (∃ (sender2 : RTCRtpSender)
          (encodings2 : List RTCRtpEncodingParameters),
        (adjustBitrate availableBandwidth pc).senders[i]? = some sender2 ∧
        sender2.parameters.encodings = some encodings2 ∧
        encodings2[j]? = some e2) ∧
      ((e.maxBitrate = none ∨ e.maxBitrate = some 0) →
        e2.maxBitrate = some availableBandwidth) ∧
      (∀ v : ℚ, e.maxBitrate = some v → v ≠ 0 →
        e2.maxBitrate = some (min availableBandwidth v) ∧
          min availableBandwidth v ≤ v) := by
  refine ⟨adjustEncoding availableBandwidth e,
    ⟨adjustSender availableBandwidth sender,
     encodings.map (adjustEncoding availableBandwidth), ?_, ?_, ?_⟩,
    ?_, ?_⟩
  · simp [adjustBitrate, List.getElem?_map, hs]
  · simp [adjustSender, he]
  · simp [List.getElem?_map, hj]
  · rintro (hnone | hzero)
    · simp [adjustEncoding, jsOr, hnone]
    · simp [adjustEncoding, jsOr, hzero]
  · intro v hv hv0
    refine ⟨?_, min_le_right _ _⟩
    simp [adjustEncoding, jsOr, hv, hv0]

/-- Witness for the amended C2: one sender with an unset-cap layer and a
cap-5 layer, bandwidth 3. -/
theorem adjustBitrate_clamps_witness :
    (0 : ℚ) ≤ 3 ∧
    (({ senders := [{ track := "t",
                      parameters := { encodings := some [
                        { maxBitrate := none },
                        { maxBitrate := some 5 }] } }] } :
       RTCPeerConnection).senders[0]? =
      some { track := "t",
             parameters := { encodings := some [
               { maxBitrate := none },
               { maxBitrate := some 5 }] } }) ∧
    (({ encodings := some [{ maxBitrate := none },
                           { maxBitrate := some 5 }] } :
        RTCRtpSendParameters).encodings =
      some [{ maxBitrate := none }, { maxBitrate := some 5 }]) ∧
    (([{ maxBitrate := none }, { maxBitrate := some 5 }] :
        List RTCRtpEncodingParameters)[1]? = some { maxBitrate := some 5 }) ∧
    (∃ e2 : RTCRtpEncodingParameters,
      (∃ (sender2 : RTCRtpSender)
          (encodings2 : List RTCRtpEncodingParameters),
        (adjustBitrate 3
          { senders := [{ track := "t",
                          parameters := { encodings := some [
                            { maxBitrate := none },
                            { maxBitrate := some 5 }] } }] }
          ).senders[0]? = some sender2 ∧
        sender2.parameters.encodings = some encodings2 ∧
        encodings2[1]? = some e2) ∧
      ((({ maxBitrate := some 5 } :
          RTCRtpEncodingParameters).maxBitrate = none ∨
        ({ maxBitrate := some 5 } :
          RTCRtpEncodingParameters).maxBitrate = some 0) →
        e2.maxBitrate = some 3) ∧
      (∀ v : ℚ, ({ maxBitrate := some 5 } :
          RTCRtpEncodingParameters).maxBitrate = some v → v ≠ 0 →
        e2.maxBitrate = some (min 3 v) ∧ min 3 v ≤ v)) :=
  ⟨by norm_num, rfl, rfl, rfl,
   adjustBitrate_clamps
     { senders := [{ track := "t",
                     parameters := { encodings := some [
                       { maxBitrate := none },
                       { maxBitrate := some 5 }] } }] }
     3 (by norm_num) 0 1
     { track := "t",
       parameters := { encodings := some [{ maxBitrate := none },
                                          { maxBitrate := some 5 }] } } rfl
     [{ maxBitrate := none }, { maxBitrate := some 5 }] rfl
     { maxBitrate := some 5 } rfl⟩

/-! ## Claims about the adaptation tick -/

/-- C6 counterexample.  A tick whose statistics fetch fails on a closed
connection: the callback body has no `try`/`catch`, so `monitorTick`
returns the exception uncaught (it is not `none`), refuting "the failure
is caught at the tick boundary"; the connection is left unadjusted. -/
theorem monitorTick_uncaught :
    (monitorTick { closed := true }
      (Except.error JsError.invalidState)).1 = { closed := true } ∧
    (monitorTick { closed := true }
      (Except.error JsError.invalidState)).2 = some JsError.invalidState ∧
    (monitorTick { closed := true }
      (Except.error JsError.invalidState)).2 ≠ none :=
  ⟨rfl, rfl, by simp [monitorTick]⟩

/-- C6 as amended.  The tick boundary catches nothing: a failed
statistics fetch makes that tick skip its adjustment (the connection is
returned unchanged) and the exception propagates out of the interval
callback unhandled, for every connection and every failure. -/
theorem monitorTick_error_spec (pc : RTCPeerConnection) (e : JsError) :
    monitorTick pc (Except.error e) = (pc, some e) := rfl

end WRP
